import Mathlib

/-!
# pstate-frequency: value sanitizing, commit ordering and CPU discovery

A shallow embedding of

* `setCpuValues` and `main` of `src/project/src/main.cpp`,
* `psfreq_cpu_init` and its helpers of `src/app/src/psfreq_cpu_init.c`,
* `psfreq_util_read` and `psfreq_util_read_pipe` of `src/app/src/psfreq_util.c`,

followed by the theorems that settle the claims of the specification.

Conventions.  A C++ `int` is an `Int`: the only arithmetic `setCpuValues` does is
`+ 1` and `- 1` on its bounds, and signed overflow has no defined behaviour to model.
The calls `setCpuValues` makes on the `psfreq::Cpu` object are recorded, in program
order, as a list of `Action`s.
-/

namespace PstateFrequency

/-! ## `main.cpp` -/

/-- Modelled from the spec: `psfreq::boundValue` (declared in `include/psfreq_util.h`, its
body is not among the sources) is the usual clamp of `value` into `[minBound, maxBound]`. -/
def boundValue (value minBound maxBound : Int) : Int :=
  if value < minBound then minBound
  else if value > maxBound then maxBound
  else value

/-- The sentinel constants `setCpuValues` compares against.  They are declared in
`include/psfreq_cpu.h` and `include/psfreq_util.h`, which are not among the sources, so
the model takes them as parameters. -/
structure Sentinels where
  INFO_FREQUENCY_INSANE : Int
  PSTATE_VALUE_INSANE : Int
  TURBO_BOOST_INSANE : Int
  GOVERNOR_INSANE : String
  UNINITIALIZED_STR : String

/-- The readings the getters of `psfreq::Cpu` return during one run of `setCpuValues`
(lines 51-55 and 174). -/
structure Cpu where
  getInfoMinValue : Int
  getInfoMaxValue : Int
  getMinValue : Int
  getMaxValue : Int
  getGovernor : String
  getTurboBoost : Int

/-- The requested values, as the getters of `psfreq::Values` return them. -/
structure Values where
  getMin : Int
  getMax : Int
  getTurbo : Int
  getGovernor : String
  shouldSleep : Bool

/-- One call that `setCpuValues` makes on the system. -/
inductive Action where
  | setScalingMin (value : Int)
  | setScalingMax (value : Int)
  | setTurboBoost (value : Int)
  | setGovernor (governor : String)
  | sleep (seconds : Nat)
  deriving DecidableEq, Repr

/-- A pair of a minimum and a maximum. -/
structure MinMax where
  minimum : Int
  maximum : Int
  deriving DecidableEq, Repr

/-- The check of lines 62-66: some reading is its insane sentinel. -/
def systemIsInsane (k : Sentinels) (cpuInfoMin cpuInfoMax cpuMinPstate cpuMaxPstate : Int)
    (cpuGovernor : String) : Bool :=
  cpuInfoMin == k.INFO_FREQUENCY_INSANE
    || cpuInfoMax == k.INFO_FREQUENCY_INSANE
    || cpuMinPstate == k.PSTATE_VALUE_INSANE
    || cpuMaxPstate == k.PSTATE_VALUE_INSANE
    || cpuGovernor == k.GOVERNOR_INSANE

/-- The system is sane: no reading is its insane sentinel. -/
def Sane (k : Sentinels) (cpu : Cpu) : Prop :=
  cpu.getInfoMinValue ≠ k.INFO_FREQUENCY_INSANE
    ∧ cpu.getInfoMaxValue ≠ k.INFO_FREQUENCY_INSANE
    ∧ cpu.getMinValue ≠ k.PSTATE_VALUE_INSANE
    ∧ cpu.getMaxValue ≠ k.PSTATE_VALUE_INSANE
    ∧ cpu.getGovernor ≠ k.GOVERNOR_INSANE

instance (k : Sentinels) (cpu : Cpu) : Decidable (Sane k cpu) := by
  unfold Sane
  infer_instance

/-- Lines 81-108 of `setCpuValues`: the new minimum and maximum. -/
def sanitize (cpuInfoMin cpuInfoMax cpuMinPstate cpuMaxPstate requestedMin requestedMax : Int) :
    MinMax :=
  let newMin := if requestedMin ≥ 0 then requestedMin else cpuMinPstate
  let newMin := boundValue newMin cpuInfoMin (cpuInfoMax - 1)
  let newMax := if requestedMax ≥ 0 then requestedMax else cpuMaxPstate
  let newMax := boundValue newMax (cpuInfoMin + 1) cpuInfoMax
  let newMin := if newMin ≥ newMax then newMax - 1 else newMin
  ⟨newMin, newMax⟩

/-- Lines 120-128 of `setCpuValues`: the sane minimum and maximum. -/
def sanePair (cpuInfoMin cpuInfoMax : Int) : MinMax :=
  let saneMin := 0
  let saneMax := 100
  let saneMin := boundValue saneMin cpuInfoMin (cpuInfoMax - 1)
  let saneMax := boundValue saneMax (cpuInfoMin + 1) cpuInfoMax
  let saneMin := if saneMin ≥ saneMax then saneMax - 1 else saneMin
  ⟨saneMin, saneMax⟩

/-- Lines 150-168 of `setCpuValues`: the real minimum and maximum, in the chosen order. -/
def realPhase (cpuMinPstate newMin newMax : Int) : List Action :=
  if cpuMinPstate > newMax then
    [Action.setScalingMin newMin, Action.setScalingMax newMax]
  else
    [Action.setScalingMax newMax, Action.setScalingMin newMin]

/-- Lines 174-184 of `setCpuValues`: the turbo boost, where the system has one. -/
def turboPhase (k : Sentinels) (cpuTurbo turbo : Int) : List Action :=
  if cpuTurbo ≠ k.TURBO_BOOST_INSANE then
    let newTurbo := if turbo ≠ -1 then turbo else cpuTurbo
    let newTurbo := boundValue newTurbo 0 1
    [Action.setTurboBoost newTurbo]
  else
    []

/-- Lines 193-198 of `setCpuValues`: the governor. -/
def governorPhase (k : Sentinels) (cpuGovernor requestedGovernor : String) : List Action :=
  let newGovernor := if requestedGovernor ≠ k.UNINITIALIZED_STR then requestedGovernor
    else cpuGovernor
  [Action.setGovernor newGovernor]

/-- The function `setCpuValues` of `main.cpp`: its return value and the calls it made. -/
def setCpuValues (k : Sentinels) (cpu : Cpu) (cpuValues : Values) : Bool × List Action :=
  let cpuInfoMin := cpu.getInfoMinValue
  let cpuInfoMax := cpu.getInfoMaxValue
  let cpuMinPstate := cpu.getMinValue
  let cpuMaxPstate := cpu.getMaxValue
  let cpuGovernor := cpu.getGovernor
  if systemIsInsane k cpuInfoMin cpuInfoMax cpuMinPstate cpuMaxPstate cpuGovernor then
    (false, [])
  else
    let new := sanitize cpuInfoMin cpuInfoMax cpuMinPstate cpuMaxPstate
      cpuValues.getMin cpuValues.getMax
    let sane := sanePair cpuInfoMin cpuInfoMax
    (true,
      [Action.setScalingMin sane.minimum, Action.setScalingMax sane.maximum]
        ++ (if cpuValues.shouldSleep then [Action.sleep 2] else [])
        ++ realPhase cpuMinPstate new.minimum new.maximum
        ++ turboPhase k cpu.getTurboBoost cpuValues.getTurbo
        ++ governorPhase k cpuGovernor cpuValues.getGovernor)

/-- The live scaling minimum and maximum of the driver. -/
structure Live where
  scalingMin : Int
  scalingMax : Int
  deriving DecidableEq, Repr

/-- A `setScalingMin` or `setScalingMax` call overwrites the live value it names. -/
def Live.write (s : Live) : Action → Live
  | Action.setScalingMin v => ⟨v, s.scalingMax⟩
  | Action.setScalingMax v => ⟨s.scalingMin, v⟩
  | _ => s

/-- The live state after each call of a sequence, in order. -/
def Live.history (s : Live) : List Action → List Live
  | [] => []
  | a :: rest => s.write a :: (s.write a).history rest

/-- The scaling-min and scaling-max calls of a sequence. -/
def scalingWrites (l : List Action) : List Action :=
  l.filter fun a =>
    match a with
    | Action.setScalingMin _ => true
    | Action.setScalingMax _ => true
    | _ => false

/-- The values of the turbo calls of a sequence. -/
def turboWrites (l : List Action) : List Int :=
  l.filterMap fun a =>
    match a with
    | Action.setTurboBoost v => some v
    | _ => none

/-- Every call but `sleep` is a write to the system. -/
def Action.isWrite : Action → Bool
  | Action.sleep _ => false
  | _ => true

/-- The writes of a sequence of calls, each with what its setter reports: `report i a` is
the report of the `i`-th write, the call `a` (`true` for a write that succeeded). -/
def writeOutcomes (report : Nat → Action → Bool) (l : List Action) : List (Action × Bool) :=
  (l.filter Action.isWrite).enum.map fun ia => (ia.2, report ia.1 ia.2)

/-- The function `setCpuValues` with each setter reporting the success or failure of its
write.  The source makes every setter call a statement of its own (lines 134, 135, 157,
158, 166, 167, 183 and 198), so what the setter reports is dropped: the value returned is
the one of `setCpuValues`, and the writes are listed with their reports. -/
def setCpuValuesReporting (report : Nat → Action → Bool) (k : Sentinels) (cpu : Cpu)
    (cpuValues : Values) : Bool × List (Action × Bool) :=
  ((setCpuValues k cpu cpuValues).1, writeOutcomes report (setCpuValues k cpu cpuValues).2)

/-- The constants `main` compares against.  They are declared in `include/psfreq_input.h`
and `include/psfreq_util.h`, which are not among the sources, so the model takes them as
parameters. -/
structure MainConstants where
  PARSE_EXIT_NORMAL : Nat
  PARSE_EXIT_GOOD : Nat
  UID_ROOT : Nat

/-- What `main` observes on its way to `setCpuValues` (lines 242-280): the results of
`cpu.init ()`, `parseOptions`, `hasPlan`, `runPlan`, `isActionNull`, `isActionGet`,
`geteuid` and `isInitialized`. -/
structure Invocation where
  init : Bool
  opts : Nat
  hasPlan : Bool
  runPlan : Bool
  isActionNull : Bool
  isActionGet : Bool
  geteuid : Nat
  isInitialized : Bool

/-- The exit status `EXIT_SUCCESS` of the C library. -/
def EXIT_SUCCESS : Nat := 0

/-- The exit status `EXIT_FAILURE` of the C library. -/
def EXIT_FAILURE : Nat := 1

/-- The function `main` of `main.cpp` (lines 242-312): its exit status and the writes it
made, with their reports.  `cpu` and `cpuValues` are the readings and the requests at the
call of `setCpuValues`. -/
def main (c : MainConstants) (k : Sentinels) (run : Invocation) (report : Nat → Action → Bool)
    (cpu : Cpu) (cpuValues : Values) : Nat × List (Action × Bool) :=
  if !run.init then (EXIT_FAILURE, [])
  else if run.opts ≠ c.PARSE_EXIT_NORMAL then
    (if run.opts = c.PARSE_EXIT_GOOD then EXIT_SUCCESS else EXIT_FAILURE, [])
  else if run.hasPlan && !run.runPlan then (EXIT_FAILURE, [])
  else if run.isActionNull then (EXIT_SUCCESS, [])
  else if run.isActionGet then (EXIT_SUCCESS, [])
  else if run.geteuid = c.UID_ROOT then
    if !run.isInitialized then (EXIT_FAILURE, [])
    else if !(setCpuValuesReporting report k cpu cpuValues).1 then
      (EXIT_FAILURE, (setCpuValuesReporting report k cpu cpuValues).2)
    else (EXIT_SUCCESS, (setCpuValuesReporting report k cpu cpuValues).2)
  else (EXIT_FAILURE, [])

/-! ## `psfreq_util.c` and `psfreq_cpu_init.c`

A C string is a `String`.  Allocation (`malloc`, `asprintf`, `psfreq_strings_concat`) is
taken to succeed.  What the code reads from the machine is a parameter: the content of
each file that can be opened and the output of each command that can be run. -/

/-- The machine as the C code sees it: `fopen path` is the content of the file at `path`
(`none` when it cannot be opened for reading), `popen cmd` is the output of the shell
command `cmd` (`none` when the pipe cannot be opened). -/
structure Machine where
  fopen : String → Option String
  popen : String → Option String

/-- The C library predicate `isspace`, in the C locale. -/
def isspace (c : Char) : Bool :=
  c == ' ' || c == '\t' || c == '\n' || c == '\x0b' || c == '\x0c' || c == '\r'

/-- Modelled from the spec: `psfreq_strings_strip_end` (of `psfreq_strings.c`, which is not
among the sources) strips the trailing whitespace, newline included, of a line. -/
def psfreq_strings_strip_end (line : String) : String :=
  String.mk (line.data.reverse.dropWhile isspace).reverse

/-- The first line of a stream that is not at its end, with its newline when it has one,
and what is left of the stream. -/
def splitLine : List Char → List Char × List Char
  | [] => ([], [])
  | c :: rest =>
    if c = '\n' then ([c], rest)
    else ((splitLine rest).1.cons c, (splitLine rest).2)

/-- The C library call `getline`: it fails at the end of the stream, and otherwise reads
one line, newline included. -/
def getline (stream : List Char) : Option (String × List Char) :=
  match stream with
  | [] => none
  | c :: rest => some (String.mk (splitLine (c :: rest)).1, (splitLine (c :: rest)).2)

/-- The loop of `psfreq_util_read_pipe` (lines 71-89): `size` lines of the pipe, each with
its end stripped, or `none` as soon as a `getline` fails. -/
def readLines : Nat → List Char → Option (List String)
  | 0, _ => some []
  | size + 1, stream =>
    match getline stream with
    | none => none
    | some (line, rest) =>
      match readLines size rest with
      | none => none
      | some lines => some (psfreq_strings_strip_end line :: lines)

/-- The function `psfreq_util_read_pipe` of `psfreq_util.c`; `none` is `NULL`. -/
def psfreq_util_read_pipe (m : Machine) (cmd : Option String) (size : Nat) :
    Option (List String) :=
  match cmd with
  | none => none
  | some cmd =>
    if size = 0 then none
    else
      match m.popen cmd with
      | none => none
      | some out => readLines size out.data

/-- The function `psfreq_util_read` of `psfreq_util.c`; `none` is `NULL`. -/
def psfreq_util_read (m : Machine) (abs_path : String) : Option String :=
  match m.fopen abs_path with
  | none => none
  | some content =>
    match getline content.data with
    | none => none
    | some (line, _) => some (psfreq_strings_strip_end line)

/-- The function `psfreq_util_read2` of `psfreq_util.c`; `psfreq_strings_concat` joins its
two arguments. -/
def psfreq_util_read2 (m : Machine) (base file : String) : Option String :=
  psfreq_util_read m (base ++ file)

/-- The sysfs handle: the directory the per-cpu files live under. -/
structure psfreq_sysfs_type where
  base_path : String

/-- Modelled from the spec: `psfreq_sysfs_read` (of `psfreq_sysfs.c`, which is not among the
sources) is the thin wrapper that reads the value of `file` under the sysfs base path with
the read primitive. -/
def psfreq_sysfs_read (m : Machine) (sysfs : psfreq_sysfs_type) (file : String) :
    Option String :=
  psfreq_util_read2 m sysfs.base_path file

/-- The fields of `struct psfreq_cpu_type` that `psfreq_cpu_init` assigns; `none` is a
`NULL` vector. -/
structure psfreq_cpu_type where
  cpu_num : Nat
  has_pstate : Bool
  cpuinfo_max_freq : Nat
  cpuinfo_min_freq : Nat
  vector_scaling_min_freq : Option (List String)
  vector_scaling_max_freq : Option (List String)
  vector_scaling_governor : Option (List String)

/-- The function `psfreq_cpu_init_find_number_cpus`.  The parse `psfreq_strings_to_uint`
(of `psfreq_strings.c`, not among the sources) is a parameter; its result is a `uint32_t`
and the function returns it as a `uint8_t`. -/
def psfreq_cpu_init_find_number_cpus (psfreq_strings_to_uint : String → Nat) (m : Machine) :
    Nat :=
  let cmd := "grep processor /proc/cpuinfo | wc -l"
  let size := 1
  match psfreq_util_read_pipe m (some cmd) size with
  | none => 0
  | some res =>
    let n := psfreq_strings_to_uint (res.headD "") % 2 ^ 32
    n % 2 ^ 8

/-- The function `psfreq_cpu_init_system_has_pstate`; `strcmp (driver, cmp) == 0` is the
equality of the two strings. -/
def psfreq_cpu_init_system_has_pstate (m : Machine) (sysfs : psfreq_sysfs_type) : Bool :=
  match psfreq_sysfs_read m sysfs "cpu0/cpufreq/scaling_driver" with
  | none => false
  | some driver =>
    let cmp := "intel_pstate\n"
    driver == cmp

/-- The function `psfreq_cpu_init_system_max_freq`. -/
def psfreq_cpu_init_system_max_freq (psfreq_strings_to_uint : String → Nat) (m : Machine)
    (sysfs : psfreq_sysfs_type) : Nat :=
  match psfreq_sysfs_read m sysfs "cpu0/cpufreq/cpuinfo_max_freq" with
  | none => 0
  | some line => psfreq_strings_to_uint line % 2 ^ 32

/-- The function `psfreq_cpu_init_system_min_freq`. -/
def psfreq_cpu_init_system_min_freq (psfreq_strings_to_uint : String → Nat) (m : Machine)
    (sysfs : psfreq_sysfs_type) : Nat :=
  match psfreq_sysfs_read m sysfs "cpu0/cpufreq/cpuinfo_min_freq" with
  | none => 0
  | some line => psfreq_strings_to_uint line % 2 ^ 32

/-- The function `psfreq_cpu_init_vector`: `asprintf` formats the index `i` in decimal
into `"cpu%u/cpufreq_scaling_%s"`, for `i` from `0` up to `cpu_num - 1`. -/
def psfreq_cpu_init_vector (cpu : psfreq_cpu_type) (what : String) : Option (List String) :=
  let num := cpu.cpu_num % 2 ^ 8
  if num = 0 then none
  else some ((List.range num).map fun i => "cpu" ++ toString i ++ "/cpufreq_scaling_" ++ what)

/-- The function `psfreq_cpu_init`: the structure after the seven assignments. -/
def psfreq_cpu_init (psfreq_strings_to_uint : String → Nat) (m : Machine)
    (cpu : psfreq_cpu_type) (sysfs : psfreq_sysfs_type) : psfreq_cpu_type :=
  let cpu := { cpu with cpu_num := psfreq_cpu_init_find_number_cpus psfreq_strings_to_uint m }
  let cpu := { cpu with has_pstate := psfreq_cpu_init_system_has_pstate m sysfs }
  let cpu := { cpu with
    cpuinfo_max_freq := psfreq_cpu_init_system_max_freq psfreq_strings_to_uint m sysfs }
  let cpu := { cpu with
    cpuinfo_min_freq := psfreq_cpu_init_system_min_freq psfreq_strings_to_uint m sysfs }
  let cpu := { cpu with vector_scaling_min_freq := psfreq_cpu_init_vector cpu "min_freq" }
  let cpu := { cpu with vector_scaling_max_freq := psfreq_cpu_init_vector cpu "max_freq" }
  let cpu := { cpu with vector_scaling_governor := psfreq_cpu_init_vector cpu "governor" }
  cpu

/-! ## Concrete systems -/

/-- A choice of the sentinels for the concrete runs below. -/
def sentinels : Sentinels := ⟨1, 0, -2, "UNINITIALIZED", "UNINITIALIZED"⟩

/-- The system of the specification's first scenario: the info range is 800000 to 3400000,
the current minimum is 1600000 and the current maximum is 3400000. -/
def scenarioCpu : Cpu := ⟨800000, 3400000, 1600000, 3400000, "powersave", 1⟩

/-- The request of the specification's first scenario: a maximum of 1000000 and nothing
else. -/
def scenarioValues : Values := ⟨-1, 1000000, -1, "UNINITIALIZED", true⟩

/-- A system on the percent scale: the info range is 24 to 100, the current minimum is 47
and the current maximum is 100. -/
def percentCpu : Cpu := ⟨24, 100, 47, 100, "powersave", 1⟩

/-- A request on the percent scale: a maximum of 30 and nothing else. -/
def percentValues : Values := ⟨-1, 30, -1, "UNINITIALIZED", false⟩

/-- A parse for the concrete runs below: the decimal value of a string of digits, and 0 for
any other string. -/
def decimal (s : String) : Nat :=
  if s.data.all Char.isDigit then s.data.foldl (fun n c => 10 * n + (c.toNat - 48)) 0 else 0

/-- The sysfs handle of the concrete runs below. -/
def sysfs : psfreq_sysfs_type := ⟨"/sys/devices/system/cpu/"⟩

/-- A machine with one processor whose scaling driver file holds the line `intel_pstate`. -/
def intelMachine : Machine :=
  ⟨fun path =>
      if path = "/sys/devices/system/cpu/cpu0/cpufreq/scaling_driver" then some "intel_pstate\n"
      else none,
    fun cmd => if cmd = "grep processor /proc/cpuinfo | wc -l" then some "1\n" else none⟩

/-- The structure `psfreq_cpu_init` starts from. -/
def blankCpu : psfreq_cpu_type := ⟨0, false, 0, 0, none, none, none⟩

/-- The constants of `main` for the concrete runs below. -/
def mainConstants : MainConstants := ⟨0, 1, 0⟩

/-- A run of `main` as root that reaches the set action with requests and no plan. -/
def rootSetInvocation : Invocation := ⟨true, 0, false, false, false, false, 0, true⟩

/-- Every write fails. -/
def everyWriteFails : Nat → Action → Bool := fun _ _ => false

/-- A machine whose processor count pipe prints `count`. -/
def machineReporting (count : String) : Machine :=
  ⟨fun _ => none,
    fun cmd => if cmd = "grep processor /proc/cpuinfo | wc -l" then some (count ++ "\n")
      else none⟩

/-! ## Theorems -/

/-! ### The sanitizer -/

theorem boundValue_ge (v lo hi : Int) (h : lo ≤ hi) : lo ≤ boundValue v lo hi := by
  unfold boundValue
  split_ifs <;> omega

theorem boundValue_le (v lo hi : Int) (h : lo ≤ hi) : boundValue v lo hi ≤ hi := by
  unfold boundValue
  split_ifs <;> omega

theorem sanitize_bounds (infoMin infoMax currentMin currentMax requestedMin requestedMax : Int)
    (h : infoMin < infoMax) :
    infoMin ≤ (sanitize infoMin infoMax currentMin currentMax requestedMin requestedMax).minimum
    ∧ (sanitize infoMin infoMax currentMin currentMax requestedMin requestedMax).minimum
        < (sanitize infoMin infoMax currentMin currentMax requestedMin requestedMax).maximum
    ∧ (sanitize infoMin infoMax currentMin currentMax requestedMin requestedMax).maximum
        ≤ infoMax := by
  simp only [sanitize]
  generalize (if requestedMin ≥ 0 then requestedMin else currentMin) = a
  generalize (if requestedMax ≥ 0 then requestedMax else currentMax) = b
  have h₁ := boundValue_ge a infoMin (infoMax - 1) (by omega)
  have h₂ := boundValue_ge b (infoMin + 1) infoMax (by omega)
  have h₃ := boundValue_le b (infoMin + 1) infoMax (by omega)
  split_ifs <;> omega

theorem sanePair_of_percent (infoMin infoMax : Int) (h₀ : 0 ≤ infoMin) (h₁ : infoMin < infoMax)
    (h₂ : infoMax ≤ 100) : sanePair infoMin infoMax = ⟨infoMin, infoMax⟩ := by
  simp only [sanePair, boundValue]
  split_ifs <;> simp <;> omega

theorem sanePair_of_nonneg (infoMin infoMax : Int) (h₀ : 0 ≤ infoMin) (h₁ : infoMin < infoMax) :
    sanePair infoMin infoMax = ⟨infoMin, boundValue 100 (infoMin + 1) infoMax⟩ := by
  simp only [sanePair, boundValue]
  split_ifs <;> simp <;> omega

theorem systemIsInsane_eq_false (k : Sentinels) (cpu : Cpu) (h : Sane k cpu) :
    systemIsInsane k cpu.getInfoMinValue cpu.getInfoMaxValue cpu.getMinValue cpu.getMaxValue
      cpu.getGovernor = false := by
  obtain ⟨h₁, h₂, h₃, h₄, h₅⟩ := h
  simp [systemIsInsane, h₁, h₂, h₃, h₄, h₅]

theorem setCpuValues_of_sane (k : Sentinels) (cpu : Cpu) (cpuValues : Values) (h : Sane k cpu) :
    setCpuValues k cpu cpuValues =
      (true,
        [Action.setScalingMin (sanePair cpu.getInfoMinValue cpu.getInfoMaxValue).minimum,
          Action.setScalingMax (sanePair cpu.getInfoMinValue cpu.getInfoMaxValue).maximum]
        ++ (if cpuValues.shouldSleep then [Action.sleep 2] else [])
        ++ realPhase cpu.getMinValue
            (sanitize cpu.getInfoMinValue cpu.getInfoMaxValue cpu.getMinValue cpu.getMaxValue
              cpuValues.getMin cpuValues.getMax).minimum
            (sanitize cpu.getInfoMinValue cpu.getInfoMaxValue cpu.getMinValue cpu.getMaxValue
              cpuValues.getMin cpuValues.getMax).maximum
        ++ turboPhase k cpu.getTurboBoost cpuValues.getTurbo
        ++ governorPhase k cpu.getGovernor cpuValues.getGovernor) := by
  simp [setCpuValues, systemIsInsane_eq_false k cpu h]

/-- C1: for `infoMin < infoMax`, whatever the current and the requested values are, the
sanitized pair satisfies `infoMin ≤ newMin < newMax ≤ infoMax`. -/
theorem sanitize_within_info_range
    (infoMin infoMax currentMin currentMax requestedMin requestedMax : Int)
    (h : infoMin < infoMax) :
    infoMin ≤ (sanitize infoMin infoMax currentMin currentMax requestedMin requestedMax).minimum
    ∧ (sanitize infoMin infoMax currentMin currentMax requestedMin requestedMax).minimum
        < (sanitize infoMin infoMax currentMin currentMax requestedMin requestedMax).maximum
    ∧ (sanitize infoMin infoMax currentMin currentMax requestedMin requestedMax).maximum
        ≤ infoMax :=
  sanitize_bounds infoMin infoMax currentMin currentMax requestedMin requestedMax h

/-- C1, at the system of the specification's first scenario. -/
theorem sanitize_within_info_range_witness :
    (800000 : Int) < 3400000
    ∧ (800000 : Int) ≤ (sanitize 800000 3400000 1600000 3400000 (-1) 1000000).minimum
    ∧ (sanitize 800000 3400000 1600000 3400000 (-1) 1000000).minimum
        < (sanitize 800000 3400000 1600000 3400000 (-1) 1000000).maximum
    ∧ (sanitize 800000 3400000 1600000 3400000 (-1) 1000000).maximum ≤ 3400000 :=
  ⟨by decide, sanitize_within_info_range 800000 3400000 1600000 3400000 (-1) 1000000 (by decide)⟩

/-- C4 as stated fails: with both requests `-1` and the current minimum equal to the current
maximum 2000000 inside the info range, the sanitizer returns 1999999 and 2000000, so the
minimum is not the current one. -/
theorem sanitize_unspecified_equal_not_unchanged :
    sanitize 800000 3400000 2000000 2000000 (-1) (-1) = ⟨1999999, 2000000⟩
    ∧ (sanitize 800000 3400000 2000000 2000000 (-1) (-1)).minimum ≠ 2000000 := by
  decide

/-- C4, amended: with both requests `-1`, `infoMin < infoMax` and the current minimum equal
to the current maximum `c`, the new maximum is `c` clamped into `[infoMin + 1, infoMax]` and
the new minimum is one below it; for `infoMin < c ≤ infoMax` the maximum is kept and the
minimum is `c - 1`. -/
theorem sanitize_unspecified_equal (infoMin infoMax c : Int) (h : infoMin < infoMax) :
    sanitize infoMin infoMax c c (-1) (-1) =
        ⟨boundValue c (infoMin + 1) infoMax - 1, boundValue c (infoMin + 1) infoMax⟩
    ∧ (infoMin < c → c ≤ infoMax → sanitize infoMin infoMax c c (-1) (-1) = ⟨c - 1, c⟩) := by
  constructor
  · simp only [sanitize, boundValue]
    split_ifs <;> simp <;> omega
  · intro h₁ h₂
    simp only [sanitize, boundValue]
    split_ifs <;> simp <;> omega

/-- C4 amended, at the input of the counterexample. -/
theorem sanitize_unspecified_equal_witness :
    (800000 : Int) < 3400000
    ∧ sanitize 800000 3400000 2000000 2000000 (-1) (-1) = ⟨2000000 - 1, 2000000⟩ :=
  ⟨by decide,
    (sanitize_unspecified_equal 800000 3400000 2000000 (by decide)).2 (by decide) (by decide)⟩

/-- C5: the new maximum is the max candidate clamped into `[infoMin + 1, infoMax]` and does
not depend on the requested or the current minimum; the new minimum is `newMax - 1` when the
min candidate clamped into `[infoMin, infoMax - 1]` is at least `newMax`, and that clamped
candidate otherwise.  At the first scenario the result is 999999 and 1000000. -/
theorem min_yields_to_max
    (infoMin infoMax currentMin currentMax requestedMin requestedMax : Int) :
    (sanitize infoMin infoMax currentMin currentMax requestedMin requestedMax).maximum =
        boundValue (if requestedMax ≥ 0 then requestedMax else currentMax) (infoMin + 1) infoMax
    ∧ (∀ otherCurrentMin otherRequestedMin : Int,
        (sanitize infoMin infoMax otherCurrentMin currentMax otherRequestedMin
            requestedMax).maximum =
          (sanitize infoMin infoMax currentMin currentMax requestedMin requestedMax).maximum)
    ∧ (boundValue (if requestedMin ≥ 0 then requestedMin else currentMin) infoMin (infoMax - 1)
          ≥ (sanitize infoMin infoMax currentMin currentMax requestedMin requestedMax).maximum →
        (sanitize infoMin infoMax currentMin currentMax requestedMin requestedMax).minimum =
          (sanitize infoMin infoMax currentMin currentMax requestedMin requestedMax).maximum - 1)
    ∧ (boundValue (if requestedMin ≥ 0 then requestedMin else currentMin) infoMin (infoMax - 1)
          < (sanitize infoMin infoMax currentMin currentMax requestedMin requestedMax).maximum →
        (sanitize infoMin infoMax currentMin currentMax requestedMin requestedMax).minimum =
          boundValue (if requestedMin ≥ 0 then requestedMin else currentMin) infoMin
            (infoMax - 1))
    ∧ sanitize 800000 3400000 1600000 3400000 (-1) 1000000 = ⟨999999, 1000000⟩ := by
  refine ⟨rfl, fun _ _ => rfl, ?_, ?_, by decide⟩
  · intro h
    simp only [sanitize] at h ⊢
    rw [if_pos h]
  · intro h
    simp only [sanitize] at h ⊢
    rw [if_neg (by omega)]

/-- C5, at the first scenario: the clamped min candidate 1600000 is above the new maximum
1000000, so the new minimum is 999999. -/
theorem min_yields_to_max_witness :
    boundValue (if (-1 : Int) ≥ 0 then -1 else 1600000) 800000 (3400000 - 1)
        ≥ (sanitize 800000 3400000 1600000 3400000 (-1) 1000000).maximum
    ∧ (sanitize 800000 3400000 1600000 3400000 (-1) 1000000).minimum =
        (sanitize 800000 3400000 1600000 3400000 (-1) 1000000).maximum - 1 :=
  ⟨by decide,
    (min_yields_to_max 800000 3400000 1600000 3400000 (-1) 1000000).2.2.1 (by decide)⟩

/-- C6: a non-negative requested value is the value clamped, and with any other requested
value the current value is the value clamped; for the maximum the clamp is the result, for
the minimum the clamped value then yields to the new maximum. -/
theorem requested_or_current
    (infoMin infoMax currentMin currentMax requestedMin requestedMax : Int) :
    (0 ≤ requestedMax →
        (sanitize infoMin infoMax currentMin currentMax requestedMin requestedMax).maximum =
          boundValue requestedMax (infoMin + 1) infoMax)
    ∧ (requestedMax < 0 →
        (sanitize infoMin infoMax currentMin currentMax requestedMin requestedMax).maximum =
          boundValue currentMax (infoMin + 1) infoMax)
    ∧ (0 ≤ requestedMin →
        (sanitize infoMin infoMax currentMin currentMax requestedMin requestedMax).minimum =
          if boundValue requestedMin infoMin (infoMax - 1) ≥
              (sanitize infoMin infoMax currentMin currentMax requestedMin requestedMax).maximum
          then
            (sanitize infoMin infoMax currentMin currentMax requestedMin requestedMax).maximum - 1
          else boundValue requestedMin infoMin (infoMax - 1))
    ∧ (requestedMin < 0 →
        (sanitize infoMin infoMax currentMin currentMax requestedMin requestedMax).minimum =
          if boundValue currentMin infoMin (infoMax - 1) ≥
              (sanitize infoMin infoMax currentMin currentMax requestedMin requestedMax).maximum
          then
            (sanitize infoMin infoMax currentMin currentMax requestedMin requestedMax).maximum - 1
          else boundValue currentMin infoMin (infoMax - 1)) := by
  refine ⟨?_, ?_, ?_, ?_⟩
  · intro h
    simp only [sanitize]
    rw [if_pos h]
  · intro h
    simp only [sanitize]
    rw [if_neg (by omega)]
  · intro h
    simp only [sanitize]
    rw [if_pos h]
  · intro h
    simp only [sanitize]
    rw [if_neg (by omega : ¬ requestedMin ≥ 0)]

/-- C6, at a request of a maximum alone: the requested maximum 1000000 and the current
minimum 1600000 are the values clamped. -/
theorem requested_or_current_witness :
    (sanitize 800000 3400000 1600000 3400000 (-1) 1000000).maximum =
        boundValue 1000000 (800000 + 1) 3400000
    ∧ (sanitize 800000 3400000 1600000 3400000 (-1) 1000000).minimum =
        if boundValue 1600000 800000 (3400000 - 1) ≥
            (sanitize 800000 3400000 1600000 3400000 (-1) 1000000).maximum
        then (sanitize 800000 3400000 1600000 3400000 (-1) 1000000).maximum - 1
        else boundValue 1600000 800000 (3400000 - 1) :=
  ⟨(requested_or_current 800000 3400000 1600000 3400000 (-1) 1000000).1 (by decide),
    (requested_or_current 800000 3400000 1600000 3400000 (-1) 1000000).2.2.2 (by decide)⟩

/-! ### The commit sequence -/

theorem scalingWrites_setCpuValues (k : Sentinels) (cpu : Cpu) (cpuValues : Values)
    (h : Sane k cpu) :
    scalingWrites (setCpuValues k cpu cpuValues).2 =
      [Action.setScalingMin (sanePair cpu.getInfoMinValue cpu.getInfoMaxValue).minimum,
        Action.setScalingMax (sanePair cpu.getInfoMinValue cpu.getInfoMaxValue).maximum]
      ++ realPhase cpu.getMinValue
          (sanitize cpu.getInfoMinValue cpu.getInfoMaxValue cpu.getMinValue cpu.getMaxValue
            cpuValues.getMin cpuValues.getMax).minimum
          (sanitize cpu.getInfoMinValue cpu.getInfoMaxValue cpu.getMinValue cpu.getMaxValue
            cpuValues.getMin cpuValues.getMax).maximum := by
  rw [setCpuValues_of_sane k cpu cpuValues h]
  simp only [scalingWrites, realPhase, turboPhase, governorPhase]
  split_ifs <;> simp [List.filter]

/-- C2: on a sane system the scaling writes of `setCpuValues` are the sane pair followed by
the real pair, and the real pair is written min first when the current minimum read at
the start is greater than `newMax`, max first in every other case; the values written are
the sanitized `newMin` and `newMax`. -/
theorem real_phase_order (k : Sentinels) (cpu : Cpu) (cpuValues : Values) (h : Sane k cpu) :
    (scalingWrites (setCpuValues k cpu cpuValues).2).drop 2 =
      if cpu.getMinValue >
          (sanitize cpu.getInfoMinValue cpu.getInfoMaxValue cpu.getMinValue cpu.getMaxValue
            cpuValues.getMin cpuValues.getMax).maximum then
        [Action.setScalingMin
            (sanitize cpu.getInfoMinValue cpu.getInfoMaxValue cpu.getMinValue cpu.getMaxValue
              cpuValues.getMin cpuValues.getMax).minimum,
          Action.setScalingMax
            (sanitize cpu.getInfoMinValue cpu.getInfoMaxValue cpu.getMinValue cpu.getMaxValue
              cpuValues.getMin cpuValues.getMax).maximum]
      else
        [Action.setScalingMax
            (sanitize cpu.getInfoMinValue cpu.getInfoMaxValue cpu.getMinValue cpu.getMaxValue
              cpuValues.getMin cpuValues.getMax).maximum,
          Action.setScalingMin
            (sanitize cpu.getInfoMinValue cpu.getInfoMaxValue cpu.getMinValue cpu.getMaxValue
              cpuValues.getMin cpuValues.getMax).minimum] := by
  rw [scalingWrites_setCpuValues k cpu cpuValues h]
  simp [realPhase]

/-- C2, at the first scenario: the current minimum 1600000 is above the new maximum
1000000, and the minimum is written first. -/
theorem real_phase_order_witness :
    Sane sentinels scenarioCpu
    ∧ (scalingWrites (setCpuValues sentinels scenarioCpu scenarioValues).2).drop 2 =
        [Action.setScalingMin 999999, Action.setScalingMax 1000000] :=
  ⟨by decide, (real_phase_order sentinels scenarioCpu scenarioValues (by decide)).trans
    (by decide)⟩

/-- Where the commit is safe: on a sane system with `0 ≤ infoMin < infoMax` that starts with
`infoMin ≤ currentMin ≤ currentMax`, the live minimum is at most the live maximum
after every call of `setCpuValues` exactly when the real phase writes the maximum first
(`currentMin ≤ newMax`) or the new minimum is at most the sane maximum.  The only failing
path is the one that writes the minimum first, above the sane maximum. -/
theorem live_min_le_max_iff (k : Sentinels) (cpu : Cpu) (cpuValues : Values)
    (hsane : Sane k cpu) (h₀ : 0 ≤ cpu.getInfoMinValue)
    (hinfo : cpu.getInfoMinValue < cpu.getInfoMaxValue)
    (hmin : cpu.getInfoMinValue ≤ cpu.getMinValue) (hcur : cpu.getMinValue ≤ cpu.getMaxValue) :
    (∀ s ∈ Live.history ⟨cpu.getMinValue, cpu.getMaxValue⟩ (setCpuValues k cpu cpuValues).2,
      s.scalingMin ≤ s.scalingMax) ↔
    (cpu.getMinValue ≤
        (sanitize cpu.getInfoMinValue cpu.getInfoMaxValue cpu.getMinValue cpu.getMaxValue
          cpuValues.getMin cpuValues.getMax).maximum
      ∨ (sanitize cpu.getInfoMinValue cpu.getInfoMaxValue cpu.getMinValue cpu.getMaxValue
          cpuValues.getMin cpuValues.getMax).minimum
        ≤ (sanePair cpu.getInfoMinValue cpu.getInfoMaxValue).maximum) := by
  rw [setCpuValues_of_sane k cpu cpuValues hsane,
    sanePair_of_nonneg cpu.getInfoMinValue cpu.getInfoMaxValue h₀ hinfo]
  have hb := sanitize_bounds cpu.getInfoMinValue cpu.getInfoMaxValue cpu.getMinValue
    cpu.getMaxValue cpuValues.getMin cpuValues.getMax hinfo
  have hs₁ := boundValue_ge 100 (cpu.getInfoMinValue + 1) cpu.getInfoMaxValue (by omega)
  have hs₂ := boundValue_le 100 (cpu.getInfoMinValue + 1) cpu.getInfoMaxValue (by omega)
  generalize sanitize cpu.getInfoMinValue cpu.getInfoMaxValue cpu.getMinValue
    cpu.getMaxValue cpuValues.getMin cpuValues.getMax = new at hb
  generalize boundValue 100 (cpu.getInfoMinValue + 1) cpu.getInfoMaxValue = saneMax at hs₁ hs₂
  obtain ⟨hb₁, hb₂, hb₃⟩ := hb
  simp only [realPhase, turboPhase, governorPhase]
  split_ifs <;> simp [Live.history, Live.write] <;> omega

/-- On the percent scale, `0 ≤ infoMin < infoMax ≤ 100`, the sane pair spans the info range,
so on a sane system that starts with `infoMin ≤ currentMin ≤ currentMax ≤ infoMax` the live
minimum is at most the live maximum after every call `setCpuValues` makes. -/
theorem live_min_le_max_on_percent_scale (k : Sentinels) (cpu : Cpu) (cpuValues : Values)
    (hsane : Sane k cpu) (h₀ : 0 ≤ cpu.getInfoMinValue) (h₁₀₀ : cpu.getInfoMaxValue ≤ 100)
    (hinfo : cpu.getInfoMinValue < cpu.getInfoMaxValue)
    (hmin : cpu.getInfoMinValue ≤ cpu.getMinValue) (hcur : cpu.getMinValue ≤ cpu.getMaxValue)
    (hmax : cpu.getMaxValue ≤ cpu.getInfoMaxValue) :
    ∀ s ∈ Live.history ⟨cpu.getMinValue, cpu.getMaxValue⟩ (setCpuValues k cpu cpuValues).2,
      s.scalingMin ≤ s.scalingMax := by
  rw [setCpuValues_of_sane k cpu cpuValues hsane,
    sanePair_of_percent cpu.getInfoMinValue cpu.getInfoMaxValue h₀ hinfo h₁₀₀]
  have hb := sanitize_bounds cpu.getInfoMinValue cpu.getInfoMaxValue cpu.getMinValue
    cpu.getMaxValue cpuValues.getMin cpuValues.getMax hinfo
  generalize sanitize cpu.getInfoMinValue cpu.getInfoMaxValue cpu.getMinValue
    cpu.getMaxValue cpuValues.getMin cpuValues.getMax = new at hb
  obtain ⟨hb₁, hb₂, hb₃⟩ := hb
  simp only [realPhase, turboPhase, governorPhase]
  split_ifs <;> simp [Live.history, Live.write] <;> omega

/-- The commit at a system on the percent scale, whose info range is 24 to 100. -/
theorem live_min_le_max_on_percent_scale_witness :
    Sane sentinels percentCpu
    ∧ ∀ s ∈ Live.history ⟨47, 100⟩ (setCpuValues sentinels percentCpu percentValues).2,
      s.scalingMin ≤ s.scalingMax :=
  ⟨by decide, live_min_le_max_on_percent_scale sentinels percentCpu percentValues (by decide)
    (by decide) (by decide) (by decide) (by decide) (by decide) (by decide)⟩

/-- C7: when one of the info minimum, the info maximum, the current minimum, the current
maximum and the governor is its insane sentinel, `setCpuValues` returns `false` and makes no
call at all; when none is, it returns `true`. -/
theorem insane_system_no_write (k : Sentinels) (cpu : Cpu) (cpuValues : Values) :
    (cpu.getInfoMinValue = k.INFO_FREQUENCY_INSANE
        ∨ cpu.getInfoMaxValue = k.INFO_FREQUENCY_INSANE
        ∨ cpu.getMinValue = k.PSTATE_VALUE_INSANE
        ∨ cpu.getMaxValue = k.PSTATE_VALUE_INSANE
        ∨ cpu.getGovernor = k.GOVERNOR_INSANE →
      setCpuValues k cpu cpuValues = (false, []))
    ∧ (cpu.getInfoMinValue ≠ k.INFO_FREQUENCY_INSANE
        ∧ cpu.getInfoMaxValue ≠ k.INFO_FREQUENCY_INSANE
        ∧ cpu.getMinValue ≠ k.PSTATE_VALUE_INSANE
        ∧ cpu.getMaxValue ≠ k.PSTATE_VALUE_INSANE
        ∧ cpu.getGovernor ≠ k.GOVERNOR_INSANE →
      (setCpuValues k cpu cpuValues).1 = true) := by
  constructor
  · intro h
    have hi : systemIsInsane k cpu.getInfoMinValue cpu.getInfoMaxValue cpu.getMinValue
        cpu.getMaxValue cpu.getGovernor = true := by
      simp only [systemIsInsane, Bool.or_eq_true, beq_iff_eq]
      tauto
    simp [setCpuValues, hi]
  · intro h
    rw [setCpuValues_of_sane k cpu cpuValues h]

/-- C7, at a system whose current minimum reads as the insane sentinel, and at the sane
system of the first scenario. -/
theorem insane_system_no_write_witness :
    setCpuValues sentinels ⟨800000, 3400000, 0, 3400000, "powersave", 1⟩ scenarioValues =
        (false, [])
    ∧ (setCpuValues sentinels scenarioCpu scenarioValues).1 = true :=
  ⟨(insane_system_no_write sentinels ⟨800000, 3400000, 0, 3400000, "powersave", 1⟩
      scenarioValues).1 (by decide),
    (insane_system_no_write sentinels scenarioCpu scenarioValues).2 (by decide)⟩

theorem turboWrites_setCpuValues (k : Sentinels) (cpu : Cpu) (cpuValues : Values)
    (h : Sane k cpu) :
    turboWrites (setCpuValues k cpu cpuValues).2 =
      if cpu.getTurboBoost ≠ k.TURBO_BOOST_INSANE then
        [boundValue (if cpuValues.getTurbo ≠ -1 then cpuValues.getTurbo else cpu.getTurboBoost)
          0 1]
      else [] := by
  rw [setCpuValues_of_sane k cpu cpuValues h]
  simp only [turboWrites, realPhase, turboPhase, governorPhase]
  split_ifs <;> simp [List.filterMap]

theorem boundValue_zero_one (v : Int) : boundValue v 0 1 = 0 ∨ boundValue v 0 1 = 1 := by
  unfold boundValue
  split_ifs <;> omega

/-- C8: on a sane system `setCpuValues` writes turbo exactly when the turbo reading is not
`TURBO_BOOST_INSANE`; the one value it then writes is the requested turbo if that is not
`-1`, else the current one, clamped into `[0, 1]`, so it is 0 or 1; on a system without
turbo there is no turbo write, whatever the request. -/
theorem turbo_write (k : Sentinels) (cpu : Cpu) (cpuValues : Values) (h : Sane k cpu) :
    (cpu.getTurboBoost ≠ k.TURBO_BOOST_INSANE →
      turboWrites (setCpuValues k cpu cpuValues).2 =
        [boundValue (if cpuValues.getTurbo ≠ -1 then cpuValues.getTurbo else cpu.getTurboBoost)
          0 1])
    ∧ (cpu.getTurboBoost = k.TURBO_BOOST_INSANE →
      turboWrites (setCpuValues k cpu cpuValues).2 = [])
    ∧ ∀ t ∈ turboWrites (setCpuValues k cpu cpuValues).2, t = 0 ∨ t = 1 := by
  rw [turboWrites_setCpuValues k cpu cpuValues h]
  refine ⟨fun ht => by simp [ht], fun ht => by simp [ht], ?_⟩
  intro t ht
  by_cases hc : cpu.getTurboBoost = k.TURBO_BOOST_INSANE
  · simp [hc] at ht
  · simp only [ne_eq, hc, not_false_eq_true, if_true, List.mem_singleton] at ht
    rw [ht]
    exact boundValue_zero_one _

/-- C8, at the first scenario with a turbo request of 7 (one turbo write, of 1) and at the
same system without turbo (no turbo write). -/
theorem turbo_write_witness :
    Sane sentinels scenarioCpu
    ∧ turboWrites (setCpuValues sentinels scenarioCpu ⟨-1, 1000000, 7, "UNINITIALIZED", true⟩).2
        = [1]
    ∧ turboWrites (setCpuValues sentinels ⟨800000, 3400000, 1600000, 3400000, "powersave", -2⟩
        ⟨-1, 1000000, 7, "UNINITIALIZED", true⟩).2 = [] :=
  ⟨by decide,
    ((turbo_write sentinels scenarioCpu ⟨-1, 1000000, 7, "UNINITIALIZED", true⟩
      (by decide)).1 (by decide)).trans (by decide),
    (turbo_write sentinels ⟨800000, 3400000, 1600000, 3400000, "powersave", -2⟩
      ⟨-1, 1000000, 7, "UNINITIALIZED", true⟩ (by decide)).2.1 (by decide)⟩

/-! ### The sane pair and the result of the set operation -/

/-- C13 as stated fails at `infoMin = 800000`, `infoMax = 3400000`: the sane pair is 800000
and 800001, so the sane maximum is not the top of the info range, and these are the two
values the sane phase writes. -/
theorem sane_pair_at_scenario :
    (0 : Int) ≤ 800000 ∧ (800000 : Int) < 3400000
    ∧ sanePair 800000 3400000 = ⟨800000, 800001⟩
    ∧ (sanePair 800000 3400000).maximum ≠ 3400000
    ∧ (scalingWrites (setCpuValues sentinels scenarioCpu scenarioValues).2).take 2 =
        [Action.setScalingMin 800000, Action.setScalingMax 800001] := by
  decide

/-- C13, amended: for `0 ≤ infoMin < infoMax` the sane pair, which a sane system writes
first, is `infoMin` and the literal 100 clamped into `[infoMin + 1, infoMax]`, the sane
minimum is below the sane maximum, and the sane maximum is `infoMax` exactly when
`infoMax ≤ 100` or `infoMax = infoMin + 1`. -/
theorem sane_pair_written (k : Sentinels) (cpu : Cpu) (cpuValues : Values) (hsane : Sane k cpu)
    (h₀ : 0 ≤ cpu.getInfoMinValue) (hinfo : cpu.getInfoMinValue < cpu.getInfoMaxValue) :
    sanePair cpu.getInfoMinValue cpu.getInfoMaxValue =
        ⟨cpu.getInfoMinValue, boundValue 100 (cpu.getInfoMinValue + 1) cpu.getInfoMaxValue⟩
    ∧ (scalingWrites (setCpuValues k cpu cpuValues).2).take 2 =
        [Action.setScalingMin cpu.getInfoMinValue,
          Action.setScalingMax (boundValue 100 (cpu.getInfoMinValue + 1) cpu.getInfoMaxValue)]
    ∧ cpu.getInfoMinValue < boundValue 100 (cpu.getInfoMinValue + 1) cpu.getInfoMaxValue
    ∧ (boundValue 100 (cpu.getInfoMinValue + 1) cpu.getInfoMaxValue = cpu.getInfoMaxValue ↔
        cpu.getInfoMaxValue ≤ 100 ∨ cpu.getInfoMaxValue = cpu.getInfoMinValue + 1) := by
  have hp := sanePair_of_nonneg cpu.getInfoMinValue cpu.getInfoMaxValue h₀ hinfo
  refine ⟨hp, ?_, ?_, ?_⟩
  · rw [scalingWrites_setCpuValues k cpu cpuValues hsane, hp]
    simp
  · have := boundValue_ge 100 (cpu.getInfoMinValue + 1) cpu.getInfoMaxValue (by omega)
    omega
  · unfold boundValue
    split_ifs <;> omega

/-- C13 amended, on the percent scale: the info range is 24 to 100 and the sane phase
writes 24 and 100. -/
theorem sane_pair_written_witness :
    Sane sentinels percentCpu
    ∧ (scalingWrites (setCpuValues sentinels percentCpu percentValues).2).take 2 =
        [Action.setScalingMin 24, Action.setScalingMax 100] :=
  ⟨by decide,
    (sane_pair_written sentinels percentCpu percentValues (by decide) (by decide)
      (by decide)).2.1.trans (by decide)⟩

/-- C12 as stated fails: on the sane system of the first scenario with every write failing,
the six writes all report failure, `setCpuValues` returns `true` and `main` exits with
`EXIT_SUCCESS`. -/
theorem set_succeeds_when_every_write_fails :
    Sane sentinels scenarioCpu
    ∧ (setCpuValuesReporting everyWriteFails sentinels scenarioCpu scenarioValues).2.length = 6
    ∧ (∀ e ∈ (setCpuValuesReporting everyWriteFails sentinels scenarioCpu scenarioValues).2,
        e.2 = false)
    ∧ (setCpuValuesReporting everyWriteFails sentinels scenarioCpu scenarioValues).1 = true
    ∧ (main mainConstants sentinels rootSetInvocation everyWriteFails scenarioCpu
        scenarioValues).1 = 0 := by
  decide

/-- C12, amended: what the setters report does not enter the result.  On a sane system
`setCpuValues` returns `true`, and `main`, run as root and reaching the set action with
requests, exits with `EXIT_SUCCESS`, whatever the writes report; when every write fails,
every write made is listed as failed. -/
theorem set_result_ignores_write_reports (c : MainConstants) (k : Sentinels) (run : Invocation)
    (report : Nat → Action → Bool) (cpu : Cpu) (cpuValues : Values) (hsane : Sane k cpu)
    (hinit : run.init = true) (hopts : run.opts = c.PARSE_EXIT_NORMAL)
    (hplan : (run.hasPlan && !run.runPlan) = false) (hnull : run.isActionNull = false)
    (hget : run.isActionGet = false) (hroot : run.geteuid = c.UID_ROOT)
    (hreq : run.isInitialized = true) :
    (setCpuValuesReporting report k cpu cpuValues).1 = true
    ∧ (main c k run report cpu cpuValues).1 = EXIT_SUCCESS
    ∧ ((∀ i a, report i a = false) →
        ∀ e ∈ (setCpuValuesReporting report k cpu cpuValues).2, e.2 = false) := by
  have hret : (setCpuValuesReporting report k cpu cpuValues).1 = true := by
    simp only [setCpuValuesReporting]
    rw [setCpuValues_of_sane k cpu cpuValues hsane]
  refine ⟨hret, ?_, ?_⟩
  · simp [main, hinit, hopts, hplan, hnull, hget, hroot, hreq, hret]
  · intro hfail e he
    simp only [setCpuValuesReporting, writeOutcomes, List.mem_map] at he
    obtain ⟨ia, _, rfl⟩ := he
    exact hfail ia.1 ia.2

/-- C12 amended, at the first scenario with every write failing. -/
theorem set_result_ignores_write_reports_witness :
    Sane sentinels scenarioCpu
    ∧ (setCpuValuesReporting everyWriteFails sentinels scenarioCpu scenarioValues).1 = true
    ∧ (main mainConstants sentinels rootSetInvocation everyWriteFails scenarioCpu
        scenarioValues).1 = EXIT_SUCCESS :=
  ⟨by decide,
    (set_result_ignores_write_reports mainConstants sentinels rootSetInvocation everyWriteFails
      scenarioCpu scenarioValues (by decide) rfl rfl rfl rfl rfl rfl rfl).1,
    (set_result_ignores_write_reports mainConstants sentinels rootSetInvocation everyWriteFails
      scenarioCpu scenarioValues (by decide) rfl rfl rfl rfl rfl rfl rfl).2.1⟩

/-! ### Discovery -/

theorem psfreq_cpu_init_vector_eq (cpu : psfreq_cpu_type) (what : String)
    (h₁ : 1 ≤ cpu.cpu_num) (h₂ : cpu.cpu_num ≤ 255) :
    psfreq_cpu_init_vector cpu what =
      some ((List.range cpu.cpu_num).map fun i =>
        "cpu" ++ toString i ++ "/cpufreq_scaling_" ++ what) := by
  have h : cpu.cpu_num % 2 ^ 8 = cpu.cpu_num := Nat.mod_eq_of_lt (by omega)
  simp only [psfreq_cpu_init_vector, h]
  rw [if_neg (by omega)]

/-- What the code builds: for a core count from 1 to 255 the entry of core `i` is
`cpu<i>/cpufreq_scaling_<what>`, which is never `cpu<i>/cpufreq/scaling_<what>`. -/
theorem psfreq_cpu_init_vector_entry (cpu : psfreq_cpu_type) (what : String)
    (h₁ : 1 ≤ cpu.cpu_num) (h₂ : cpu.cpu_num ≤ 255) (i : Nat) (hi : i < cpu.cpu_num) :
    (psfreq_cpu_init_vector cpu what).bind (fun v => v.get? i) =
        some ("cpu" ++ toString i ++ "/cpufreq_scaling_" ++ what)
    ∧ "cpu" ++ toString i ++ "/cpufreq_scaling_" ++ what ≠
        "cpu" ++ toString i ++ "/cpufreq/scaling_" ++ what := by
  constructor
  · rw [psfreq_cpu_init_vector_eq cpu what h₁ h₂]
    simp [hi]
  · intro h
    have hd := congrArg String.data h
    simp only [String.data_append, List.append_assoc] at hd
    have hc := List.append_cancel_left (List.append_cancel_left hd)
    simp at hc

/-- C9 fails on the code: for one core, `psfreq_cpu_init` builds
`cpu0/cpufreq_scaling_min_freq`, `cpu0/cpufreq_scaling_max_freq` and
`cpu0/cpufreq_scaling_governor`, with an underscore where the claimed paths
`cpu0/cpufreq/scaling_...` have a slash. -/
theorem psfreq_cpu_init_paths_at_one_core :
    (psfreq_cpu_init decimal intelMachine blankCpu sysfs).cpu_num = 1
    ∧ (psfreq_cpu_init decimal intelMachine blankCpu sysfs).vector_scaling_min_freq =
        some ["cpu0/cpufreq_scaling_min_freq"]
    ∧ (psfreq_cpu_init decimal intelMachine blankCpu sysfs).vector_scaling_max_freq =
        some ["cpu0/cpufreq_scaling_max_freq"]
    ∧ (psfreq_cpu_init decimal intelMachine blankCpu sysfs).vector_scaling_governor =
        some ["cpu0/cpufreq_scaling_governor"]
    ∧ (psfreq_cpu_init decimal intelMachine blankCpu sysfs).vector_scaling_min_freq ≠
        some ["cpu0/cpufreq/scaling_min_freq"]
    ∧ (psfreq_cpu_init decimal intelMachine blankCpu sysfs).vector_scaling_max_freq ≠
        some ["cpu0/cpufreq/scaling_max_freq"]
    ∧ (psfreq_cpu_init decimal intelMachine blankCpu sysfs).vector_scaling_governor ≠
        some ["cpu0/cpufreq/scaling_governor"] := by
  decide

theorem dropWhile_head_not {α : Type} (p : α → Bool) (l : List α) (a : α) (t : List α)
    (h : l.dropWhile p = a :: t) : p a = false := by
  induction l with
  | nil => simp at h
  | cons b rest ih =>
    rw [List.dropWhile_cons] at h
    split_ifs at h with hb
    · exact ih h
    · cases h
      simpa using hb

theorem psfreq_strings_strip_end_ne (line : String) :
    psfreq_strings_strip_end line ≠ "intel_pstate\n" := by
  intro h
  have h₁ := congrArg String.data h
  simp only [psfreq_strings_strip_end] at h₁
  have h₂ := congrArg List.reverse h₁
  rw [List.reverse_reverse] at h₂
  have h₃ := dropWhile_head_not isspace line.data.reverse '\n' "etatsp_letni".data h₂
  revert h₃
  decide

/-- What the code does: whatever the machine holds, discovery leaves the P-State flag
`false`, because the line it reads has its trailing newline stripped and is compared with
`intel_pstate` followed by a newline. -/
theorem psfreq_cpu_init_system_has_pstate_eq_false (m : Machine) (sysfs : psfreq_sysfs_type) :
    psfreq_cpu_init_system_has_pstate m sysfs = false := by
  simp only [psfreq_cpu_init_system_has_pstate, psfreq_sysfs_read, psfreq_util_read2,
    psfreq_util_read]
  cases m.fopen (sysfs.base_path ++ "cpu0/cpufreq/scaling_driver") with
  | none => rfl
  | some content =>
    simp only []
    cases getline content.data with
    | none => rfl
    | some r =>
      simp only [beq_eq_false_iff_ne]
      exact psfreq_strings_strip_end_ne r.1

/-- C10 fails on the code: on a machine whose `cpu0/cpufreq/scaling_driver` holds the line
`intel_pstate`, the value read is the string `intel_pstate`, and discovery sets the P-State
flag to `false`. -/
theorem has_pstate_false_at_intel_pstate :
    intelMachine.fopen "/sys/devices/system/cpu/cpu0/cpufreq/scaling_driver" =
        some "intel_pstate\n"
    ∧ psfreq_sysfs_read intelMachine sysfs "cpu0/cpufreq/scaling_driver" = some "intel_pstate"
    ∧ psfreq_cpu_init_system_has_pstate intelMachine sysfs = false
    ∧ (psfreq_cpu_init decimal intelMachine blankCpu sysfs).has_pstate = false := by
  decide

theorem psfreq_cpu_init_find_number_cpus_lt (psfreq_strings_to_uint : String → Nat)
    (m : Machine) : psfreq_cpu_init_find_number_cpus psfreq_strings_to_uint m < 256 := by
  simp only [psfreq_cpu_init_find_number_cpus]
  cases psfreq_util_read_pipe m (some "grep processor /proc/cpuinfo | wc -l") 1 with
  | none => exact Nat.zero_lt_succ 255
  | some res => exact Nat.mod_lt _ (by norm_num)

theorem psfreq_cpu_init_vector_length (cpu : psfreq_cpu_type) (what : String)
    (h : cpu.cpu_num < 256) :
    (psfreq_cpu_init_vector cpu what).map List.length =
      if cpu.cpu_num = 0 then none else some cpu.cpu_num := by
  have hm : cpu.cpu_num % 2 ^ 8 = cpu.cpu_num := Nat.mod_eq_of_lt (by omega)
  simp only [psfreq_cpu_init_vector, hm]
  split_ifs <;> simp

theorem psfreq_cpu_init_eq (psfreq_strings_to_uint : String → Nat) (m : Machine)
    (cpu : psfreq_cpu_type) (sysfs : psfreq_sysfs_type) :
    (psfreq_cpu_init psfreq_strings_to_uint m cpu sysfs).cpu_num =
        psfreq_cpu_init_find_number_cpus psfreq_strings_to_uint m
    ∧ (psfreq_cpu_init psfreq_strings_to_uint m cpu sysfs).vector_scaling_min_freq =
        psfreq_cpu_init_vector
          ⟨psfreq_cpu_init_find_number_cpus psfreq_strings_to_uint m, false, 0, 0, none, none,
            none⟩ "min_freq"
    ∧ (psfreq_cpu_init psfreq_strings_to_uint m cpu sysfs).vector_scaling_max_freq =
        psfreq_cpu_init_vector
          ⟨psfreq_cpu_init_find_number_cpus psfreq_strings_to_uint m, false, 0, 0, none, none,
            none⟩ "max_freq"
    ∧ (psfreq_cpu_init psfreq_strings_to_uint m cpu sysfs).vector_scaling_governor =
        psfreq_cpu_init_vector
          ⟨psfreq_cpu_init_find_number_cpus psfreq_strings_to_uint m, false, 0, 0, none, none,
            none⟩ "governor" := by
  simp [psfreq_cpu_init, psfreq_cpu_init_vector]

/-- C11: after `psfreq_cpu_init` each of the three per-core path sequences is absent when
the discovered core count is 0 and has exactly `cpu_num` entries otherwise, so the three
are all absent or all of length `cpu_num`, and none is a zero-length sequence. -/
theorem per_core_vectors_absent_or_full (psfreq_strings_to_uint : String → Nat) (m : Machine)
    (cpu : psfreq_cpu_type) (sysfs : psfreq_sysfs_type) :
    ((psfreq_cpu_init psfreq_strings_to_uint m cpu sysfs).vector_scaling_min_freq.map
        List.length =
      if (psfreq_cpu_init psfreq_strings_to_uint m cpu sysfs).cpu_num = 0 then none
      else some (psfreq_cpu_init psfreq_strings_to_uint m cpu sysfs).cpu_num)
    ∧ ((psfreq_cpu_init psfreq_strings_to_uint m cpu sysfs).vector_scaling_max_freq.map
        List.length =
      if (psfreq_cpu_init psfreq_strings_to_uint m cpu sysfs).cpu_num = 0 then none
      else some (psfreq_cpu_init psfreq_strings_to_uint m cpu sysfs).cpu_num)
    ∧ ((psfreq_cpu_init psfreq_strings_to_uint m cpu sysfs).vector_scaling_governor.map
        List.length =
      if (psfreq_cpu_init psfreq_strings_to_uint m cpu sysfs).cpu_num = 0 then none
      else some (psfreq_cpu_init psfreq_strings_to_uint m cpu sysfs).cpu_num)
    ∧ (psfreq_cpu_init psfreq_strings_to_uint m cpu sysfs).vector_scaling_min_freq ≠ some []
    ∧ (psfreq_cpu_init psfreq_strings_to_uint m cpu sysfs).vector_scaling_max_freq ≠ some []
    ∧ (psfreq_cpu_init psfreq_strings_to_uint m cpu sysfs).vector_scaling_governor ≠ some [] := by
  obtain ⟨hn, h₁, h₂, h₃⟩ := psfreq_cpu_init_eq psfreq_strings_to_uint m cpu sysfs
  have hlt := psfreq_cpu_init_find_number_cpus_lt psfreq_strings_to_uint m
  have l₁ := psfreq_cpu_init_vector_length
    ⟨psfreq_cpu_init_find_number_cpus psfreq_strings_to_uint m, false, 0, 0, none, none, none⟩
    "min_freq" hlt
  have l₂ := psfreq_cpu_init_vector_length
    ⟨psfreq_cpu_init_find_number_cpus psfreq_strings_to_uint m, false, 0, 0, none, none, none⟩
    "max_freq" hlt
  have l₃ := psfreq_cpu_init_vector_length
    ⟨psfreq_cpu_init_find_number_cpus psfreq_strings_to_uint m, false, 0, 0, none, none, none⟩
    "governor" hlt
  rw [hn, h₁, h₂, h₃]
  refine ⟨l₁, l₂, l₃, ?_, ?_, ?_⟩
  · intro h
    rw [h] at l₁
    split_ifs at l₁ with h0
    · simp at l₁
    · simp only [Option.map_some', List.length_nil, Option.some.injEq] at l₁
      exact h0 l₁.symm
  · intro h
    rw [h] at l₂
    split_ifs at l₂ with h0
    · simp at l₂
    · simp only [Option.map_some', List.length_nil, Option.some.injEq] at l₂
      exact h0 l₂.symm
  · intro h
    rw [h] at l₃
    split_ifs at l₃ with h0
    · simp at l₃
    · simp only [Option.map_some', List.length_nil, Option.some.injEq] at l₃
      exact h0 l₃.symm

/-- C11, at a machine reporting four processors (each sequence has four entries) and at one
whose pipe cannot be read (each sequence is absent). -/
theorem per_core_vectors_absent_or_full_witness :
    (psfreq_cpu_init decimal (machineReporting "4") blankCpu sysfs).vector_scaling_min_freq.map
        List.length = some 4
    ∧ (psfreq_cpu_init decimal (machineReporting "") blankCpu sysfs).vector_scaling_governor.map
        List.length = none :=
  ⟨(per_core_vectors_absent_or_full decimal (machineReporting "4") blankCpu sysfs).1.trans
      (by decide),
    (per_core_vectors_absent_or_full decimal (machineReporting "") blankCpu
      sysfs).2.2.1.trans (by decide)⟩

/-- C14: when the pipe is read, `psfreq_cpu_init_find_number_cpus` returns the parsed count
`n` modulo 256 and this is the core count of `psfreq_cpu_init`; when `n` is a multiple of
256 the core count is 0 and the three path sequences are absent, and for `n = 257` the core
count is 1. -/
theorem find_number_cpus_mod_256 (psfreq_strings_to_uint : String → Nat) (m : Machine)
    (cpu : psfreq_cpu_type) (sysfs : psfreq_sysfs_type) (res : List String) (n : Nat)
    (hres : psfreq_util_read_pipe m (some "grep processor /proc/cpuinfo | wc -l") 1 = some res)
    (hn : psfreq_strings_to_uint (res.headD "") = n) :
    psfreq_cpu_init_find_number_cpus psfreq_strings_to_uint m = n % 256
    ∧ (psfreq_cpu_init psfreq_strings_to_uint m cpu sysfs).cpu_num = n % 256
    ∧ (n % 256 = 0 →
        (psfreq_cpu_init psfreq_strings_to_uint m cpu sysfs).cpu_num = 0
        ∧ (psfreq_cpu_init psfreq_strings_to_uint m cpu sysfs).vector_scaling_min_freq = none
        ∧ (psfreq_cpu_init psfreq_strings_to_uint m cpu sysfs).vector_scaling_max_freq = none
        ∧ (psfreq_cpu_init psfreq_strings_to_uint m cpu sysfs).vector_scaling_governor = none)
    ∧ (n = 257 → (psfreq_cpu_init psfreq_strings_to_uint m cpu sysfs).cpu_num = 1) := by
  have hf : psfreq_cpu_init_find_number_cpus psfreq_strings_to_uint m = n % 256 := by
    simp only [psfreq_cpu_init_find_number_cpus, hres, hn]
    omega
  obtain ⟨hc, h₁, h₂, h₃⟩ := psfreq_cpu_init_eq psfreq_strings_to_uint m cpu sysfs
  refine ⟨hf, hc.trans hf, ?_, ?_⟩
  · intro h0
    rw [hc, h₁, h₂, h₃, hf, h0]
    simp [psfreq_cpu_init_vector]
  · intro h257
    rw [hc, hf, h257]

/-- C14, at machines reporting 256 processors (core count 0, no path sequence) and 257
processors (core count 1). -/
theorem find_number_cpus_mod_256_witness :
    psfreq_util_read_pipe (machineReporting "256")
        (some "grep processor /proc/cpuinfo | wc -l") 1 = some ["256"]
    ∧ decimal "256" = 256
    ∧ (psfreq_cpu_init decimal (machineReporting "256") blankCpu sysfs).cpu_num = 0
    ∧ (psfreq_cpu_init decimal (machineReporting "256") blankCpu sysfs).vector_scaling_min_freq
        = none
    ∧ (psfreq_cpu_init decimal (machineReporting "257") blankCpu sysfs).cpu_num = 1 :=
  ⟨by decide, by decide,
    ((find_number_cpus_mod_256 decimal (machineReporting "256") blankCpu sysfs ["256"] 256
      (by decide) (by decide)).2.2.1 (by decide)).1,
    ((find_number_cpus_mod_256 decimal (machineReporting "256") blankCpu sysfs ["256"] 256
      (by decide) (by decide)).2.2.1 (by decide)).2.1,
    (find_number_cpus_mod_256 decimal (machineReporting "257") blankCpu sysfs ["257"] 257
      (by decide) (by decide)).2.2.2 rfl⟩

end PstateFrequency
